import Mathlib

/-!
# NomNom Studio — verification of the job-orchestration and credit-ledger core

Shallow embedding of the credit wallet (`profiles` + `credit_transactions` +
`deduct_credits`), the Stripe webhook grant branches, the batch submission
endpoint, the background worker with its polling loop, the
`sync_job_completion` trigger, and the ZIP bundle endpoint.
Definitions are translated from the repository sources named in each
doc comment.
-/

namespace NomNom

/- ## Credit wallet and ledger
   (tables `profiles`, `credit_transactions` in 001_initial_schema.sql) -/

/-- The `source` column of `credit_transactions`. -/
inductive TxSource
  | monthly_grant
  | topup_purchase
  | job_charge
  | refund
  | churn_bonus
deriving DecidableEq, Repr

/-- One row of `credit_transactions`. -/
structure LedgerEntry where
  amount : Int
  balance_after : Int
  source : TxSource
deriving DecidableEq, Repr

/-- Credit-wallet columns of one `profiles` row. -/
structure Wallet where
  monthly_credits : Int
  topup_credits : Int
  credits_used_cycle : Int
deriving DecidableEq, Repr

/-- A user's wallet together with their ledger rows, oldest first. -/
structure WalletState where
  wallet : Wallet
  ledger : List LedgerEntry
deriving DecidableEq, Repr

/-- SQL function `get_available_credits`: `monthly_credits + topup_credits`. -/
def Wallet.available (w : Wallet) : Int :=
  w.monthly_credits + w.topup_credits

/-- Sum of the `amount` column over a user's ledger rows. -/
def ledgerSum (s : WalletState) : Int :=
  (s.ledger.map (fun e => e.amount)).sum

/-- SQL function `deduct_credits(p_user_id, p_amount)`
(001_initial_schema.sql): returns FALSE and changes nothing when
`monthly + topup < amount`; otherwise deducts monthly-first, adds
`amount` to `credits_used_cycle` and inserts one `job_charge` row. -/
def deduct_credits (s : WalletState) (amount : Int) : Bool × WalletState :=
  let v_monthly := s.wallet.monthly_credits
  let v_topup := s.wallet.topup_credits
  if v_monthly + v_topup < amount then
    (false, s)
  else
    let v_deduct_monthly := min amount v_monthly
    let v_deduct_topup := amount - v_deduct_monthly
    let v_balance_after := (v_monthly - v_deduct_monthly) + (v_topup - v_deduct_topup)
    (true,
      { wallet :=
          { monthly_credits := v_monthly - v_deduct_monthly
            topup_credits := v_topup - v_deduct_topup
            credits_used_cycle := s.wallet.credits_used_cycle + amount }
        ledger := s.ledger ++ [⟨-amount, v_balance_after, .job_charge⟩] })

/-- Stripe webhook, `invoice.payment_succeeded` branch
(webhook route, monthly plan grant): overwrites `monthly_credits` with
the plan amount, resets `credits_used_cycle`, and inserts a
`monthly_grant` row with `amount = grant` and `balance_after = grant`. -/
def monthlyGrant (s : WalletState) (grant : Int) : WalletState :=
  { wallet :=
      { monthly_credits := grant
        topup_credits := s.wallet.topup_credits
        credits_used_cycle := 0 }
    ledger := s.ledger ++ [⟨grant, grant, .monthly_grant⟩] }

/-- Stripe webhook, `checkout.session.completed` branch (top-up pack):
adds to `topup_credits` and inserts a `topup_purchase` row whose
`balance_after` is `monthly_credits + newTopup`. -/
def topupPurchase (s : WalletState) (credits : Int) : WalletState :=
  let newTopup := s.wallet.topup_credits + credits
  let newBalance := s.wallet.monthly_credits + newTopup
  { wallet := { s.wallet with topup_credits := newTopup }
    ledger := s.ledger ++ [⟨credits, newBalance, .topup_purchase⟩] }

/- ## Batch store
   (tables `processing_jobs`, `processed_images`; trigger
   `trg_sync_job_on_image_complete` in 001_initial_schema.sql) -/

/-- The `job_status` enum, shared by jobs and images. -/
inductive JobStatus
  | queued
  | processing
  | completed
  | failed
  | cancelled
deriving DecidableEq, Repr

/-- One `processing_jobs` row (the columns the core logic touches).
`started_at` and `completed_at` are abstracted to whether the
timestamp has been stamped. -/
structure Job where
  total_images : Int
  completed_count : Int
  failed_count : Int
  status : JobStatus
  credits_charged : Int
  started_at : Bool
  completed_at : Bool
  error_message : Option String
deriving DecidableEq, Repr

/-- One `processed_images` row (the columns the core logic touches).
`has_output` abstracts a non-null `output_path`. -/
structure Item where
  status : JobStatus
  progress_pct : Int
  position : Int
  error_message : Option String
  has_output : Bool
deriving DecidableEq, Repr

/-- A job row together with its image rows ordered by `position`. -/
structure Batch where
  job : Job
  items : List Item
deriving DecidableEq, Repr

/-- Membership in the trigger's status set
`('completed','failed')` used by the WHEN clause. -/
def inTriggerSet (s : JobStatus) : Bool :=
  s = .completed || s = .failed

/-- Body of the SQL trigger function `sync_job_completion`, applied to
the job row of the updated image, for an image whose new status is
`newStatus`. Sequential semantics: the pre-read `v_*` variables and
the row values referenced inside the UPDATE coincide. -/
def sync_job_completion (j : Job) (newStatus : JobStatus) : Job :=
  let v_total := j.total_images
  let v_completed := j.completed_count
  let v_failed := j.failed_count
  if newStatus = .completed then
    { j with
        completed_count := v_completed + 1
        status := if v_completed + 1 + v_failed = v_total then .completed else j.status
        completed_at := if v_completed + 1 + v_failed = v_total then true else j.completed_at }
  else if newStatus = .failed then
    { j with
        failed_count := v_failed + 1
        status := if v_completed + v_failed + 1 = v_total then .completed else j.status
        completed_at := if v_completed + v_failed + 1 = v_total then true else j.completed_at }
  else
    j

/-- The trigger `trg_sync_job_on_image_complete` with its WHEN guard:
fires only when the image's new status is in `('completed','failed')`
and its old status is not. -/
def applySyncTrigger (j : Job) (oldStatus newStatus : JobStatus) : Job :=
  if inTriggerSet newStatus && !inTriggerSet oldStatus then
    sync_job_completion j newStatus
  else
    j

/-- One supabase `update(...).eq('id', img.id)` on image `i` of the
batch, followed by the status-sync trigger on the job row. -/
def updateItem (b : Batch) (i : Nat) (f : Item → Item) : Batch :=
  match b.items[i]? with
  | none => b
  | some it =>
      let it' := f it
      { job := applySyncTrigger b.job it.status it'.status
        items := b.items.set i it' }

/- ## Enhancement client: `pollNanoBanana` (worker/route.ts) -/

/-- Provider-side job status reported by a poll response. -/
inductive NBStatus
  | pending
  | processing
  | completed
  | failed
deriving DecidableEq, Repr

/-- One poll response: `ok` is the HTTP `res.ok` flag; the remaining
fields are the parsed JSON body. A JSON field that may be absent is an
`Option`. -/
structure PollResponse where
  ok : Bool
  status : NBStatus
  progress : Option ℚ
  output_url : Option String
  error : Option String
deriving DecidableEq, Repr

/-- Result of the poll loop: the returned `output_url`, or the thrown
error message. -/
inductive PollResult
  | success (url : String)
  | failure (msg : String)
deriving DecidableEq, Repr

/-- Default `maxAttempts` parameter of `pollNanoBanana` (60 × 5 s = 5 min). -/
def maxAttempts : Nat := 60

/-- Default `intervalMs` parameter of `pollNanoBanana`. -/
def intervalMs : Nat := 5000

/-- JavaScript `Math.round` on the exact rational value: nearest
integer, halves toward positive infinity. -/
def jsRound (q : ℚ) : Int :=
  ⌊q + 1 / 2⌋

/-- Fallback progress `i / maxAttempts * 100` used when the provider
omits the `progress` field. -/
def fallbackProgress (i : Nat) : ℚ :=
  (i : ℚ) / (maxAttempts : ℚ) * 100

/-- The effective progress of attempt `i`:
`data.progress ?? i / maxAttempts * 100`. -/
def effProgress (resp : Nat → PollResponse) (i : Nat) : ℚ :=
  (resp i).progress.getD (fallbackProgress i)

/-- The `progress_pct` value written during attempt `i`:
`Math.min(74, 40 + Math.round((data.progress ?? i/maxAttempts*100) * 0.35))`. -/
def pollWriteVal (resp : Nat → PollResponse) (i : Nat) : Int :=
  min 74 (40 + jsRound (effProgress resp i * (35 / 100)))

/-- The first terminal test of the loop body:
`data.status === 'completed' && data.output_url`. -/
def isDoneResp (r : PollResponse) : Bool :=
  (r.status == .completed) && r.output_url.isSome

/-- The second terminal test of the loop body:
`data.status === 'failed'`. -/
def isFailedResp (r : PollResponse) : Bool :=
  r.status == .failed

/-- Whether response `r` ends the poll loop: an HTTP-ok body whose
status is `completed` with an `output_url`, or whose status is
`failed`. -/
def isTerminalResp (r : PollResponse) : Bool :=
  r.ok && (isDoneResp r || isFailedResp r)

/-- The `for` loop of `pollNanoBanana`, from attempt `i` with `fuel`
attempts left. Returns the `progress_pct` values written to the image
row, in order, and the loop's outcome. A non-ok response writes
nothing and continues; an ok response writes, then checks the two
terminal conditions. -/
def pollAux (resp : Nat → PollResponse) : Nat → Nat → List Int × PollResult
  | _, 0 => ([], .failure "Nano Banana processing timed out")
  | i, fuel + 1 =>
      let r := resp i
      if r.ok then
        let w := pollWriteVal resp i
        if isDoneResp r then
          ([w], .success (r.output_url.getD ""))
        else if isFailedResp r then
          ([w], .failure (r.error.getD "Nano Banana processing failed"))
        else
          let rest := pollAux resp (i + 1) fuel
          (w :: rest.1, rest.2)
      else
        pollAux resp (i + 1) fuel

/-- Function `pollNanoBanana(externalId, img, db)` with its default parameters,
abstracted over the sequence of poll responses. -/
def pollNanoBanana (resp : Nat → PollResponse) : List Int × PollResult :=
  pollAux resp 0 maxAttempts

/- ## Item processor: `processImage` (worker/route.ts) -/

/-- Environment of one `processImage` call: outcome of each external
interaction, in program order. `submitErrMsg` and `storeErrMsg` carry
the message text built from the external error. -/
structure ImageEnv where
  signOk : Bool
  submitOk : Bool
  submitErrMsg : String
  pollResp : Nat → PollResponse
  fetchOk : Bool
  storeOk : Bool
  storeErrMsg : String

/-- Marks image `i` failed with the caught error message
(the `catch` block of `processImage`). -/
def failItem (b : Batch) (i : Nat) (msg : String) : Batch :=
  updateItem b i (fun it => { it with status := .failed, error_message := some msg })

/-- Applies the poll loop's sequence of `progress_pct` writes to
image `i`. -/
def applyPollWrites (b : Batch) (i : Nat) (ws : List Int) : Batch :=
  ws.foldl (fun acc w => updateItem acc i (fun it => { it with progress_pct := w })) b

/-- Function `processImage({db, img, job, ratioConf, prompt})`: drives image `i`
of the batch through sign → submit → poll → fetch → store, mirroring
the sequence of row updates; any failure marks the image `failed` with
the corresponding message. -/
def processImage (b : Batch) (i : Nat) (env : ImageEnv) : Batch :=
  let b1 := updateItem b i (fun it => { it with status := .processing, progress_pct := 5 })
  if !env.signOk then
    failItem b1 i "Could not sign original URL"
  else
    let b2 := updateItem b1 i (fun it => { it with progress_pct := 15 })
    if !env.submitOk then
      failItem b2 i env.submitErrMsg
    else
      let b3 := updateItem b2 i (fun it => { it with progress_pct := 40 })
      let poll := pollNanoBanana env.pollResp
      let b4 := applyPollWrites b3 i poll.1
      match poll.2 with
      | .failure msg => failItem b4 i msg
      | .success _ =>
          let b5 := updateItem b4 i (fun it => { it with progress_pct := 75 })
          if !env.fetchOk then
            failItem b5 i "Failed to fetch Nano Banana output"
          else if !env.storeOk then
            failItem b5 i env.storeErrMsg
          else
            updateItem b5 i (fun it =>
              { it with status := .completed, progress_pct := 100, has_output := true })

/- ## Worker endpoint: `POST /api/worker` (worker/route.ts) -/

/-- The worker's `POST` handler after the job row is found: marks the
job `processing` (stamping `started_at`) without inspecting its
current status, fails the job when it has no image rows, and otherwise
runs `processImage` on every image in position order. -/
def workerRun (b : Batch) (envs : Nat → ImageEnv) : Batch :=
  let b1 : Batch :=
    { b with job := { b.job with status := .processing, started_at := true } }
  if b1.items.isEmpty then
    { b1 with job := { b1.job with status := .failed, error_message := some "No images found" } }
  else
    (List.range b1.items.length).foldl (fun acc i => processImage acc i (envs i)) b1

/- ## Batch submission endpoint: `POST /api/process` (unnamed part_004) -/

/-- The responses the submission handler can produce after validation
has passed. `ok` carries the `creditsCharged` field of the JSON
response, which the handler sets to `successUploads.length`. -/
inductive SubmitResponse
  | insufficientCredits
  | deductionFailed
  | jobCreateFailed
  | allUploadsFailed
  | ok (creditsCharged : Int)
deriving DecidableEq, Repr

/-- Observable outcome of one submission: the HTTP response, the final
wallet state, the job row (if created) and the inserted image rows. -/
structure SubmitResult where
  response : SubmitResponse
  wallet : WalletState
  job : Option Job
  items : List Item
deriving Repr

/-- Steps 4–8 of the `POST /api/process` handler (after form
validation), for `n` files whose storage upload succeeds exactly where
`uploadOk` is true: checks `available < files.length`, calls
`deduct_credits` with `files.length`, inserts the job with
`total_images = files.length` and `credits_charged = files.length`,
uploads the originals, and on total upload failure merely sets the job
status to `failed`; on partial failure it inserts one image row per
stored original and lowers `total_images` to the stored count. -/
def processSubmit (s : WalletState) (n : Nat) (uploadOk : Nat → Bool) : SubmitResult :=
  let available := s.wallet.available
  if available < (n : Int) then
    { response := .insufficientCredits, wallet := s, job := none, items := [] }
  else
    let ded := deduct_credits s (n : Int)
    if !ded.1 then
      { response := .deductionFailed, wallet := ded.2, job := none, items := [] }
    else
      let job : Job :=
        { total_images := (n : Int), completed_count := 0, failed_count := 0
          status := .queued, credits_charged := (n : Int)
          started_at := false, completed_at := false, error_message := none }
      let successIdx := (List.range n).filter (fun i => uploadOk i)
      if successIdx.length = 0 then
        { response := .allUploadsFailed
          wallet := ded.2
          job := some { job with status := .failed }
          items := [] }
      else
        let items := successIdx.map (fun i =>
          ({ status := .queued, progress_pct := 0, position := (i : Int) + 1
             error_message := none, has_output := false } : Item))
        let job2 :=
          if successIdx.length < n then
            { job with total_images := (successIdx.length : Int) }
          else
            job
        { response := .ok (successIdx.length : Int)
          wallet := ded.2
          job := some job2
          items := items }

/- ## Bundle endpoint: `POST /api/jobs/[id]/zip` (zip/route.ts) -/

/-- The cached `zip_bundles` row consulted for reuse. Timestamps are
epoch milliseconds. -/
structure ExistingBundle where
  signed_url : Option String
  signed_url_exp : Option Int
deriving DecidableEq, Repr

/-- The `zip_bundles` row upserted after a rebuild. -/
structure ZipBundleRecord where
  image_count : Int
  signed_url : String
deriving DecidableEq, Repr

/-- One `completed` image row as loaded by the bundle query. -/
structure ZipImage where
  position : Int
  original_filename : String
deriving DecidableEq, Repr

/-- External interactions of one bundle build. `itemSignedUrl` is the
per-image `createSignedUrl(output_path, 300)`; `fetchBytes` is the
download of that URL (`none` when `!res.ok`), returning an abstract
content token. -/
structure ZipEnv where
  itemSignedUrl : ZipImage → Option String
  fetchBytes : String → Option Nat
  zipUploadOk : Bool
  zipSignedUrl : Option String

/-- Outcome of the bundle endpoint: an error response, the cached URL,
or a fresh build carrying the upserted record and the archive entries
(position, sanitized-name source, content) actually placed in the ZIP. -/
inductive ZipOutcome
  | notCompleted
  | cached (signedUrl : String)
  | noImages
  | storeFailed
  | signFailed
  | built (signedUrl : String) (bundle : ZipBundleRecord)
      (entries : List (Int × String × Nat))
deriving Repr

/-- The cache test of the handler: an existing row with a signed URL
whose recorded expiry is still more than 60 s past `now`. -/
def zipCacheHit (existing : Option ExistingBundle) (now : Int) : Option String :=
  match existing with
  | none => none
  | some e =>
      match e.signed_url, e.signed_url_exp with
      | some u, some exp => if now + 60000 < exp then some u else none
      | _, _ => none

/-- The per-image download of the build loop: sign, then fetch; either
failure makes the callback `return` early, silently contributing no
archive entry for that image. -/
def zipEntryOf (env : ZipEnv) (img : ZipImage) : Option (Int × String × Nat) :=
  match env.itemSignedUrl img with
  | none => none
  | some u =>
      match env.fetchBytes u with
      | none => none
      | some bytes => some (img.position, img.original_filename, bytes)

/-- Archive entries produced for the queried images, in position
order. -/
def zipEntries (images : List ZipImage) (env : ZipEnv) : List (Int × String × Nat) :=
  images.filterMap (zipEntryOf env)

/-- The `POST /api/jobs/[id]/zip` handler after auth and ownership:
rejects a non-completed job, serves a still-valid cached bundle,
rejects when no completed image exists, builds the archive skipping
images whose sign-or-fetch fails, stores it, signs it, and upserts the
bundle row with `image_count = images.length` (the queried count). -/
def zipPOST (jobStatus : JobStatus) (existing : Option ExistingBundle) (now : Int)
    (images : List ZipImage) (env : ZipEnv) : ZipOutcome :=
  if jobStatus ≠ .completed then
    .notCompleted
  else
    match zipCacheHit existing now with
    | some u => .cached u
    | none =>
        if images.isEmpty then
          .noImages
        else
          let entries := zipEntries images env
          if !env.zipUploadOk then
            .storeFailed
          else
            match env.zipSignedUrl with
            | none => .signFailed
            | some url =>
                .built url { image_count := (images.length : Int), signed_url := url } entries

/- ## Concrete instances used by the evaluation theorems -/

/-- A wallet holding 10 monthly credits and an empty ledger. -/
def tenCreditWallet : WalletState := ⟨⟨10, 0, 0⟩, []⟩

/-- Submission of 5 files whose storage uploads all fail. -/
def c1Result : SubmitResult := processSubmit tenCreditWallet 5 (fun _ => false)

/-- A brand-new account: zero balances, empty ledger. -/
def freshWallet : WalletState := ⟨⟨0, 0, 0⟩, []⟩

/-- Two consecutive monthly grants of 20 (subscription create, then
first renewal) on a fresh account. -/
def doubleGrant : WalletState := monthlyGrant (monthlyGrant freshWallet 20) 20

/-- A 10-credit top-up followed by a monthly grant of 20 on a fresh
account. -/
def topupThenGrant : WalletState := monthlyGrant (topupPurchase freshWallet 10) 20

/-- Submission of 2 files where only the first storage upload
succeeds. -/
def c4Result : SubmitResult := processSubmit tenCreditWallet 2 (fun i => i == 0)

/-- A completed image row with its output stored. -/
def doneItem : Item := ⟨.completed, 100, 1, none, true⟩

/-- A fully finished batch: 2 images, both completed, counters final,
status `completed`, `completed_at` stamped. -/
def finishedBatch : Batch :=
  ⟨⟨2, 2, 0, .completed, 2, true, true, none⟩, [doneItem, { doneItem with position := 2 }]⟩

/-- A provider environment in which every step succeeds and the first
poll already reports completion. -/
def happyEnv : ImageEnv :=
  ⟨true, true, "", fun _ => ⟨true, .completed, some 100, some "https://out", none⟩, true, true, ""⟩

/-- Re-invocation of the worker on the already-finished batch. -/
def c2Result : Batch := workerRun finishedBatch (fun _ => happyEnv)

/-- A job mid-run: 3 images, 1 completed and 1 failed so far. -/
def midJob : Job := ⟨3, 1, 1, .processing, 3, true, false, none⟩

/-- A batch with one queued image, about to be processed. -/
def oneItemBatch : Batch := ⟨⟨1, 0, 0, .processing, 1, true, false, none⟩, [⟨.queued, 0, 1, none, false⟩]⟩

/-- A poll response that is never terminal: HTTP ok, provider still
pending, no progress field. -/
def pendingResp : PollResponse := ⟨true, .pending, none, none, none⟩

/-- An environment whose provider never reaches a terminal state. -/
def stuckEnv : ImageEnv := ⟨true, true, "", fun _ => pendingResp, true, true, ""⟩

/-- Poll sequence refuting monotone progress: the first response
reports `progress = 100`, the second omits the progress field and
reports provider failure. -/
def c9Resp : Nat → PollResponse := fun i =>
  if i = 0 then ⟨true, .pending, some 100, none, none⟩
  else ⟨true, .failed, none, none, some "provider exploded"⟩

/-- The two `completed` image rows of the bundle-build example. -/
def c10Images : List ZipImage := [⟨1, "soup.jpg"⟩, ⟨2, "cake.jpg"⟩]

/-- A bundle-build environment in which signing the second image's
output fails while everything else succeeds. -/
def c10Env : ZipEnv :=
  { itemSignedUrl := fun img => if img.position = 1 then some "https://img1" else none
    fetchBytes := fun _ => some 7
    zipUploadOk := true
    zipSignedUrl := some "https://zip" }

/- ## Theorems -/

/-- C1: when every source upload of a 5-image submission fails, the
handler marks the batch `failed` and creates no image rows, but — in
contradiction with the claim — it never credits the charge back: the
wallet stays 5 credits lighter, the ledger holds only the `-5` charge
(net charge `-5`, not `0`), no `refund` entry exists, and
`total_images` stays 5. -/
theorem C1_all_uploads_failed_never_refunded :
    c1Result.response = .allUploadsFailed ∧
    c1Result.job.map (fun j => j.status) = some .failed ∧
    c1Result.items = [] ∧
    c1Result.wallet.wallet.available = 5 ∧
    ledgerSum c1Result.wallet = -5 ∧
    (∀ e ∈ c1Result.wallet.ledger, e.source ≠ .refund) ∧
    c1Result.job.map (fun j => j.total_images) = some 5 := by
  decide

/-- C3: the ledger-replay invariant fails on code-realizable grant
sequences. Two consecutive monthly grants of 20 on a fresh wallet
leave a balance of 20 while the ledger amounts sum to 40, and after a
10-credit top-up followed by a monthly grant the last entry records
`balance_after = 20` while the wallet balance is 30. -/
theorem C3_ledger_replay_invariant_fails :
    doubleGrant.wallet.available = 20 ∧
    ledgerSum doubleGrant = 40 ∧
    topupThenGrant.wallet.available = 30 ∧
    topupThenGrant.ledger.getLast?.map (fun e => e.balance_after) = some 20 := by
  decide

/-- C4: a 2-image submission where one upload fails deducts 2 credits
from the wallet and records `credits_charged = 2` (the requested
count), while only 1 image is accepted (`total_images` is lowered to 1
and one image row exists) — and the JSON response even reports
`creditsCharged = 1`, contradicting the actual charge. -/
theorem C4_charge_is_requested_count_not_accepted :
    c4Result.response = .ok 1 ∧
    c4Result.job.map (fun j => j.credits_charged) = some 2 ∧
    c4Result.job.map (fun j => j.total_images) = some 1 ∧
    c4Result.items.length = 1 ∧
    c4Result.wallet.wallet.available = 8 ∧
    ledgerSum c4Result.wallet = -2 := by
  decide

/-- C6: charging any amount strictly above the available balance
returns FALSE and leaves the whole wallet state — both balances,
`credits_used_cycle` and the ledger — untouched. -/
theorem C6_insufficient_funds_no_side_effect (s : WalletState) (amount : Int)
    (h : s.wallet.available < amount) :
    deduct_credits s amount = (false, s) := by
  have h' : s.wallet.monthly_credits + s.wallet.topup_credits < amount := h
  simp [deduct_credits, h']

/-- Witness for C6 at a concrete input: 1 available credit, charge of 5. -/
theorem C6_insufficient_funds_no_side_effect_witness :
    (⟨⟨1, 0, 0⟩, []⟩ : WalletState).wallet.available < 5 ∧
    deduct_credits ⟨⟨1, 0, 0⟩, []⟩ 5 = (false, ⟨⟨1, 0, 0⟩, []⟩) :=
  ⟨by decide, C6_insufficient_funds_no_side_effect ⟨⟨1, 0, 0⟩, []⟩ 5 (by decide)⟩

/-- C7: a covered charge deducts `min(amount, monthly)` from the
monthly balance and the remainder from the top-up balance, adds the
full amount to `credits_used_cycle`, keeps both balances non-negative,
and appends exactly one ledger row with `amount = -charge` and
`balance_after` equal to the resulting total balance. -/
theorem C7_covered_charge_monthly_first (s : WalletState) (amount : Int)
    (h : amount ≤ s.wallet.available)
    (_hm : 0 ≤ s.wallet.monthly_credits) (ht : 0 ≤ s.wallet.topup_credits) :
    (deduct_credits s amount).1 = true ∧
    (deduct_credits s amount).2.wallet.monthly_credits
      = s.wallet.monthly_credits - min amount s.wallet.monthly_credits ∧
    (deduct_credits s amount).2.wallet.topup_credits
      = s.wallet.topup_credits - (amount - min amount s.wallet.monthly_credits) ∧
    (deduct_credits s amount).2.wallet.credits_used_cycle
      = s.wallet.credits_used_cycle + amount ∧
    0 ≤ (deduct_credits s amount).2.wallet.monthly_credits ∧
    0 ≤ (deduct_credits s amount).2.wallet.topup_credits ∧
    (deduct_credits s amount).2.ledger
      = s.ledger ++ [⟨-amount, (deduct_credits s amount).2.wallet.available, .job_charge⟩] := by
  have h' : ¬ (s.wallet.monthly_credits + s.wallet.topup_credits < amount) := by
    have hav : amount ≤ s.wallet.monthly_credits + s.wallet.topup_credits := h
    omega
  simp only [deduct_credits, h', if_false, Wallet.available]
  refine ⟨trivial, trivial, trivial, trivial, ?_, ?_, trivial⟩
  · omega
  · omega

/-- Witness for C7 at a concrete input: wallet (3 monthly, 4 top-up),
charge of 5 — monthly drained to 0, top-up lowered to 2. -/
theorem C7_covered_charge_monthly_first_witness :
    (5 : Int) ≤ (⟨⟨3, 4, 0⟩, []⟩ : WalletState).wallet.available ∧
    (0 : Int) ≤ (⟨⟨3, 4, 0⟩, []⟩ : WalletState).wallet.monthly_credits ∧
    (0 : Int) ≤ (⟨⟨3, 4, 0⟩, []⟩ : WalletState).wallet.topup_credits ∧
    ((deduct_credits ⟨⟨3, 4, 0⟩, []⟩ 5).1 = true ∧
      (deduct_credits ⟨⟨3, 4, 0⟩, []⟩ 5).2.wallet.monthly_credits
        = (⟨⟨3, 4, 0⟩, []⟩ : WalletState).wallet.monthly_credits - min 5 (⟨⟨3, 4, 0⟩, []⟩ : WalletState).wallet.monthly_credits ∧
      (deduct_credits ⟨⟨3, 4, 0⟩, []⟩ 5).2.wallet.topup_credits
        = (⟨⟨3, 4, 0⟩, []⟩ : WalletState).wallet.topup_credits - (5 - min 5 (⟨⟨3, 4, 0⟩, []⟩ : WalletState).wallet.monthly_credits) ∧
      (deduct_credits ⟨⟨3, 4, 0⟩, []⟩ 5).2.wallet.credits_used_cycle
        = (⟨⟨3, 4, 0⟩, []⟩ : WalletState).wallet.credits_used_cycle + 5 ∧
      0 ≤ (deduct_credits ⟨⟨3, 4, 0⟩, []⟩ 5).2.wallet.monthly_credits ∧
      0 ≤ (deduct_credits ⟨⟨3, 4, 0⟩, []⟩ 5).2.wallet.topup_credits ∧
      (deduct_credits ⟨⟨3, 4, 0⟩, []⟩ 5).2.ledger
        = ([] : List LedgerEntry) ++ [⟨-5, (deduct_credits ⟨⟨3, 4, 0⟩, []⟩ 5).2.wallet.available, .job_charge⟩]) :=
  ⟨by decide, by decide, by decide,
    C7_covered_charge_monthly_first ⟨⟨3, 4, 0⟩, []⟩ 5 (by decide) (by decide) (by decide)⟩

/-- C2: re-invoking the worker on an already-completed batch is not a
no-op. The handler never inspects the current batch status: it resets
the batch to `processing` and re-runs every image, so each image
passes through `processing` back to `completed`, the trigger guard
sees a fresh non-terminal-to-terminal transition, and
`completed_count` is double-counted from 2 to 4 while the batch is
left stuck in `processing`. -/
theorem C2_terminal_batch_reinvocation_mutates :
    c2Result.job.completed_count = 4 ∧
    c2Result.job.status = .processing ∧
    c2Result.job ≠ finishedBatch.job := by
  refine ⟨by decide, by decide, ?_⟩
  intro hEq
  have : c2Result.job.completed_count = finishedBatch.job.completed_count := by rw [hEq]
  revert this
  decide

/-- C5: for one guarded image transition applied to the job row, a
transition into `completed` increments exactly `completed_count` by
one, a transition into `failed` increments exactly `failed_count` by
one, the batch becomes `completed` with `completed_at` stamped exactly
when the two counters then sum to `total_images`, and an update whose
old image status is already terminal leaves the job row unchanged. -/
theorem C5_terminal_transition_counts_once (j : Job) (oldS newS : JobStatus)
    (hold : inTriggerSet oldS = false)
    (hst : j.status ≠ .completed) (hca : j.completed_at = false) :
    (newS = .completed →
      (applySyncTrigger j oldS newS).completed_count = j.completed_count + 1 ∧
      (applySyncTrigger j oldS newS).failed_count = j.failed_count ∧
      ((applySyncTrigger j oldS newS).status = .completed ↔
        j.completed_count + 1 + j.failed_count = j.total_images) ∧
      ((applySyncTrigger j oldS newS).completed_at = true ↔
        j.completed_count + 1 + j.failed_count = j.total_images)) ∧
    (newS = .failed →
      (applySyncTrigger j oldS newS).failed_count = j.failed_count + 1 ∧
      (applySyncTrigger j oldS newS).completed_count = j.completed_count ∧
      ((applySyncTrigger j oldS newS).status = .completed ↔
        j.completed_count + j.failed_count + 1 = j.total_images) ∧
      ((applySyncTrigger j oldS newS).completed_at = true ↔
        j.completed_count + j.failed_count + 1 = j.total_images)) ∧
    (∀ oldT newT, inTriggerSet oldT = true → applySyncTrigger j oldT newT = j) := by
  refine ⟨?_, ?_, ?_⟩
  · rintro rfl
    have hnew : inTriggerSet JobStatus.completed = true := rfl
    have hg : applySyncTrigger j oldS JobStatus.completed = sync_job_completion j JobStatus.completed := by
      simp [applySyncTrigger, hold, hnew]
    rw [hg]
    refine ⟨?_, ?_, ?_, ?_⟩
    · simp [sync_job_completion]
    · simp [sync_job_completion]
    · simp only [sync_job_completion]
      split <;> simp_all
    · simp only [sync_job_completion]
      split <;> simp_all
  · rintro rfl
    have hnew : inTriggerSet JobStatus.failed = true := rfl
    have hg : applySyncTrigger j oldS JobStatus.failed = sync_job_completion j JobStatus.failed := by
      simp [applySyncTrigger, hold, hnew]
    rw [hg]
    refine ⟨?_, ?_, ?_, ?_⟩
    · simp [sync_job_completion]
    · simp [sync_job_completion]
    · simp only [sync_job_completion]
      split <;> simp_all
    · simp only [sync_job_completion]
      split <;> simp_all
  · intro oldT newT hterm
    simp [applySyncTrigger, hterm]

/-- Witness for C5: a 3-image job with 1 completed and 1 failed image,
receiving a `processing → completed` transition — the counters reach
2 + 1 = 3 = total, so the job flips to `completed`. -/
theorem C5_terminal_transition_counts_once_witness :
    inTriggerSet .processing = false ∧ midJob.status ≠ .completed ∧ midJob.completed_at = false ∧
    (((JobStatus.completed : JobStatus) = .completed →
      (applySyncTrigger midJob .processing .completed).completed_count = midJob.completed_count + 1 ∧
      (applySyncTrigger midJob .processing .completed).failed_count = midJob.failed_count ∧
      ((applySyncTrigger midJob .processing .completed).status = .completed ↔
        midJob.completed_count + 1 + midJob.failed_count = midJob.total_images) ∧
      ((applySyncTrigger midJob .processing .completed).completed_at = true ↔
        midJob.completed_count + 1 + midJob.failed_count = midJob.total_images)) ∧
    ((JobStatus.completed : JobStatus) = .failed →
      (applySyncTrigger midJob .processing .completed).failed_count = midJob.failed_count + 1 ∧
      (applySyncTrigger midJob .processing .completed).completed_count = midJob.completed_count ∧
      ((applySyncTrigger midJob .processing .completed).status = .completed ↔
        midJob.completed_count + midJob.failed_count + 1 = midJob.total_images) ∧
      ((applySyncTrigger midJob .processing .completed).completed_at = true ↔
        midJob.completed_count + midJob.failed_count + 1 = midJob.total_images)) ∧
    (∀ oldT newT, inTriggerSet oldT = true → applySyncTrigger midJob oldT newT = midJob)) :=
  ⟨by decide, by decide, by decide,
    C5_terminal_transition_counts_once midJob .processing .completed (by decide) (by decide) (by decide)⟩

/-- When no response in the window is terminal, the poll loop runs to
fuel exhaustion: it returns the timeout failure and writes at most
one progress value per attempt. -/
theorem pollAux_timeout (resp : Nat → PollResponse) :
    ∀ fuel i, (∀ k, i ≤ k → k < i + fuel → isTerminalResp (resp k) = false) →
      (pollAux resp i fuel).2 = .failure "Nano Banana processing timed out" ∧
      (pollAux resp i fuel).1.length ≤ fuel := by
  intro fuel
  induction fuel with
  | zero =>
      intro i _
      exact ⟨rfl, by simp [pollAux]⟩
  | succ n ih =>
      intro i h
      have hi : isTerminalResp (resp i) = false := h i (le_refl i) (by omega)
      have hnext : ∀ k, i + 1 ≤ k → k < i + 1 + n → isTerminalResp (resp k) = false := by
        intro k hk1 hk2
        exact h k (by omega) (by omega)
      have ihnext := ih (i + 1) hnext
      by_cases hok : (resp i).ok
      · have hterm : (isDoneResp (resp i) || isFailedResp (resp i)) = false := by
          have := hi
          simp only [isTerminalResp, hok, Bool.true_and] at this
          exact this
        have hc : isDoneResp (resp i) = false := (Bool.or_eq_false_iff.mp hterm).1
        have hf : isFailedResp (resp i) = false := (Bool.or_eq_false_iff.mp hterm).2
        simp only [pollAux, hok, if_true, hc, hf, Bool.false_eq_true, if_false]
        refine ⟨ihnext.1, ?_⟩
        simpa using Nat.succ_le_succ ihnext.2
      · simp only [pollAux, hok, Bool.false_eq_true, if_false]
        exact ⟨ihnext.1, Nat.le_succ_of_le ihnext.2⟩

/-- A row update of image `i` maps the stored row through `f`. -/
theorem updateItem_getElem (b : Batch) (i : Nat) (f : Item → Item) (it : Item)
    (h : b.items[i]? = some it) :
    (updateItem b i f).items[i]? = some (f it) := by
  have hlt : i < b.items.length := by
    by_contra hge
    simp [List.getElem?_eq_none (Nat.le_of_not_lt hge)] at h
  simp [updateItem, h, List.getElem?_set_self, hlt]

/-- A row update of image `i` never drops the row. -/
theorem updateItem_isSome (b : Batch) (i : Nat) (f : Item → Item)
    (h : (b.items[i]?).isSome) :
    ((updateItem b i f).items[i]?).isSome := by
  rcases Option.isSome_iff_exists.mp h with ⟨it, hit⟩
  rw [updateItem_getElem b i f it hit]
  rfl

/-- Replaying any sequence of progress writes on image `i` never drops
the row. -/
theorem applyPollWrites_isSome (i : Nat) :
    ∀ (ws : List Int) (b : Batch), (b.items[i]?).isSome →
      ((applyPollWrites b i ws).items[i]?).isSome := by
  intro ws
  induction ws with
  | nil => intro b h; exact h
  | cons w rest ih =>
      intro b h
      have h1 := updateItem_isSome b i (fun it => { it with progress_pct := w }) h
      simpa [applyPollWrites] using ih _ h1

/-- Marking image `i` failed stores status `failed` and the message,
whatever the row held before. -/
theorem failItem_getElem (b : Batch) (i : Nat) (msg : String)
    (h : (b.items[i]?).isSome) :
    ((failItem b i msg).items[i]?).map (fun it => it.status) = some .failed ∧
    ((failItem b i msg).items[i]?).map (fun it => it.error_message) = some (some msg) := by
  rcases Option.isSome_iff_exists.mp h with ⟨it, hit⟩
  rw [failItem, updateItem_getElem b i _ it hit]
  exact ⟨rfl, rfl⟩

/-- C8: when the provider never reports a terminal state within the
attempt window, the poll loop stops after at most `maxAttempts = 60`
attempts (the defaults being 60 attempts at a 5000 ms interval) with
the timeout error, and `processImage` marks the image `failed` with
the timeout-specific message. -/
theorem C8_poll_timeout_fails_item (b : Batch) (i : Nat) (env : ImageEnv)
    (hit : (b.items[i]?).isSome)
    (hsign : env.signOk = true) (hsub : env.submitOk = true)
    (hterm : ∀ k, k < maxAttempts → isTerminalResp (env.pollResp k) = false) :
    ((processImage b i env).items[i]?).map (fun it => it.status) = some .failed ∧
    ((processImage b i env).items[i]?).map (fun it => it.error_message)
      = some (some "Nano Banana processing timed out") ∧
    (pollNanoBanana env.pollResp).1.length ≤ maxAttempts ∧
    maxAttempts = 60 ∧ intervalMs = 5000 := by
  have hpoll := pollAux_timeout env.pollResp maxAttempts 0
    (by intro k _ hk; exact hterm k (by omega))
  have hres : (pollNanoBanana env.pollResp).2 = .failure "Nano Banana processing timed out" :=
    hpoll.1
  have h1 := updateItem_isSome b i
    (fun it => { it with status := .processing, progress_pct := 5 }) hit
  have h2 := updateItem_isSome _ i (fun it => { it with progress_pct := 15 }) h1
  have h3 := updateItem_isSome _ i (fun it => { it with progress_pct := 40 }) h2
  have h4 := applyPollWrites_isSome i (pollNanoBanana env.pollResp).1 _ h3
  have hfail := failItem_getElem
    (applyPollWrites
      (updateItem
        (updateItem
          (updateItem b i (fun it => { it with status := .processing, progress_pct := 5 }))
          i (fun it => { it with progress_pct := 15 }))
        i (fun it => { it with progress_pct := 40 }))
      i (pollNanoBanana env.pollResp).1)
    i "Nano Banana processing timed out" h4
  have hporig : processImage b i env = failItem
      (applyPollWrites
        (updateItem
          (updateItem
            (updateItem b i (fun it => { it with status := .processing, progress_pct := 5 }))
            i (fun it => { it with progress_pct := 15 }))
          i (fun it => { it with progress_pct := 40 }))
        i (pollNanoBanana env.pollResp).1)
      i "Nano Banana processing timed out" := by
    simp only [processImage, hsign, hsub, Bool.not_true, Bool.false_eq_true, if_false]
    rw [hres]
  rw [hporig]
  exact ⟨hfail.1, hfail.2, hpoll.2, rfl, rfl⟩

/-- Witness for C8: a one-image batch polled against a provider that
stays `pending` forever. -/
theorem C8_poll_timeout_fails_item_witness :
    (oneItemBatch.items[0]?).isSome ∧ stuckEnv.signOk = true ∧ stuckEnv.submitOk = true ∧
    (∀ k, k < maxAttempts → isTerminalResp (stuckEnv.pollResp k) = false) ∧
    (((processImage oneItemBatch 0 stuckEnv).items[0]?).map (fun it => it.status) = some .failed ∧
      ((processImage oneItemBatch 0 stuckEnv).items[0]?).map (fun it => it.error_message)
        = some (some "Nano Banana processing timed out") ∧
      (pollNanoBanana stuckEnv.pollResp).1.length ≤ maxAttempts ∧
      maxAttempts = 60 ∧ intervalMs = 5000) :=
  ⟨by decide, rfl, rfl, by decide,
    C8_poll_timeout_fails_item oneItemBatch 0 stuckEnv (by decide) rfl rfl (by decide)⟩

/-- C9 counterexample: against `c9Resp` the loop writes 74 (reported
progress 100, rounded: `min(74, 40 + round(35)) = 74`) and then 41
(omitted progress, fallback `1/60*100`, rounded up to 41): the
successive writes strictly decrease, and the second write differs from
the claim's unrounded formula `min(74, 40 + 0.35 × 5/3) = 40 + 7/12`. -/
theorem C9_progress_writes_counterexample :
    (pollNanoBanana c9Resp).1 = [pollWriteVal c9Resp 0, pollWriteVal c9Resp 1] ∧
    pollWriteVal c9Resp 0 = 74 ∧
    pollWriteVal c9Resp 1 = 41 ∧
    ¬ ((74 : Int) ≤ 41) ∧
    (41 : ℚ) ≠ min 74 (40 + 35 / 100 * effProgress c9Resp 1) := by
  have he0 : effProgress c9Resp 0 = 100 := rfl
  have he1 : effProgress c9Resp 1 = 5 / 3 := by
    show fallbackProgress 1 = 5 / 3
    unfold fallbackProgress
    norm_num [maxAttempts]
  refine ⟨rfl, ?_, ?_, by norm_num, ?_⟩
  · unfold pollWriteVal
    rw [he0]
    have hr : jsRound (100 * (35 / 100)) = 35 := by
      unfold jsRound
      norm_num
    rw [hr]
    norm_num
  · unfold pollWriteVal
    rw [he1]
    have hr : jsRound (5 / 3 * (35 / 100)) = 1 := by
      unfold jsRound
      rw [show (5 : ℚ) / 3 * (35 / 100) + 1 / 2 = 13 / 12 by norm_num]
      norm_num
    rw [hr]
    norm_num
  · rw [he1]
    rw [show (40 : ℚ) + 35 / 100 * (5 / 3) = 487 / 12 by norm_num]
    rw [min_eq_right (by norm_num)]
    norm_num

/-- The write value is monotone in the effective progress. -/
theorem pollWriteVal_le (resp : Nat → PollResponse) (a b : Nat)
    (hq : effProgress resp a ≤ effProgress resp b) :
    pollWriteVal resp a ≤ pollWriteVal resp b := by
  unfold pollWriteVal
  have h1 : effProgress resp a * (35 / 100) ≤ effProgress resp b * (35 / 100) :=
    mul_le_mul_of_nonneg_right hq (by norm_num)
  have h2 : jsRound (effProgress resp a * (35 / 100)) ≤ jsRound (effProgress resp b * (35 / 100)) := by
    unfold jsRound
    exact Int.floor_le_floor (by linarith)
  exact min_le_min (le_refl 74) (by omega)

/-- Every value the poll loop writes is the rounded clamped formula at
the attempt index that produced it. -/
theorem pollAux_mem (resp : Nat → PollResponse) :
    ∀ fuel i w, w ∈ (pollAux resp i fuel).1 →
      ∃ j, i ≤ j ∧ j < i + fuel ∧ (resp j).ok = true ∧ w = pollWriteVal resp j := by
  intro fuel
  induction fuel with
  | zero =>
      intro i w hw
      simp [pollAux] at hw
  | succ n ih =>
      intro i w hw
      by_cases hok : (resp i).ok
      · by_cases hdone : isDoneResp (resp i)
        · simp only [pollAux, hok, hdone, if_true] at hw
          rcases List.mem_singleton.mp hw with rfl
          exact ⟨i, le_refl i, by omega, hok, rfl⟩
        · by_cases hfail : isFailedResp (resp i)
          · simp only [pollAux, hok, hdone, hfail, Bool.false_eq_true, if_true, if_false] at hw
            rcases List.mem_singleton.mp hw with rfl
            exact ⟨i, le_refl i, by omega, hok, rfl⟩
          · simp only [pollAux, hok, hdone, hfail, Bool.false_eq_true, if_true, if_false,
              List.mem_cons] at hw
            rcases hw with rfl | hw
            · exact ⟨i, le_refl i, by omega, hok, rfl⟩
            · obtain ⟨j, hj1, hj2, hjok, rfl⟩ := ih (i + 1) w hw
              exact ⟨j, by omega, by omega, hjok, rfl⟩
      · simp only [pollAux, hok, Bool.false_eq_true, if_false] at hw
        obtain ⟨j, hj1, hj2, hjok, rfl⟩ := ih (i + 1) w hw
        exact ⟨j, by omega, by omega, hjok, rfl⟩

/-- Under a non-decreasing effective-progress sequence, the written
values form a non-decreasing chain. -/
theorem pollAux_chain (resp : Nat → PollResponse)
    (hmono : ∀ b, b < maxAttempts → ∀ a, a ≤ b → effProgress resp a ≤ effProgress resp b) :
    ∀ fuel i, i + fuel ≤ maxAttempts →
      List.Chain' (fun x y => x ≤ y) (pollAux resp i fuel).1 := by
  intro fuel
  induction fuel with
  | zero =>
      intro i _
      simp [pollAux]
  | succ n ih =>
      intro i hle
      by_cases hok : (resp i).ok
      · by_cases hdone : isDoneResp (resp i)
        · simp [pollAux, hok, hdone]
        · by_cases hfail : isFailedResp (resp i)
          · simp [pollAux, hok, hdone, hfail]
          · simp only [pollAux, hok, hdone, hfail, Bool.false_eq_true, if_true, if_false]
            rw [List.chain'_cons']
            refine ⟨?_, ih (i + 1) (by omega)⟩
            intro y hy
            have hmem := List.mem_of_mem_head? hy
            obtain ⟨j, hj1, hj2, _, rfl⟩ := pollAux_mem resp n (i + 1) y hmem
            exact pollWriteVal_le resp i j (hmono j (by omega) i (by omega))
      · simp only [pollAux, hok, Bool.false_eq_true, if_false]
        exact ih (i + 1) (by omega)

/-- C9 amended: every poll-phase write equals
`min(74, 40 + round(0.35 × reported_or_fallback_progress))` at the
attempt that produced it — the code rounds the scaled progress to the
nearest integer, unlike the claim's exact formula — and the writes are
monotonically non-decreasing only under the hypothesis that the
effective (reported-or-fallback) progress sequence is itself
non-decreasing over the attempt window. -/
theorem C9_amended_rounded_writes_conditionally_monotone (resp : Nat → PollResponse)
    (hmono : ∀ b, b < maxAttempts → ∀ a, a ≤ b → effProgress resp a ≤ effProgress resp b) :
    (∀ w ∈ (pollNanoBanana resp).1, ∃ j, j < maxAttempts ∧ (resp j).ok = true ∧
      w = pollWriteVal resp j) ∧
    List.Chain' (fun x y => x ≤ y) (pollNanoBanana resp).1 := by
  constructor
  · intro w hw
    obtain ⟨j, _, hj2, hok, rfl⟩ := pollAux_mem resp maxAttempts 0 w hw
    exact ⟨j, by omega, hok, rfl⟩
  · exact pollAux_chain resp hmono maxAttempts 0 (by omega)

/-- Witness for the amended C9: a provider that always omits the
progress field — the fallback progress grows with the attempt index,
so the hypothesis holds and the writes are a non-decreasing chain. -/
theorem C9_amended_rounded_writes_witness :
    (∀ b, b < maxAttempts → ∀ a, a ≤ b →
      effProgress (fun _ => pendingResp) a ≤ effProgress (fun _ => pendingResp) b) ∧
    ((∀ w ∈ (pollNanoBanana (fun _ => pendingResp)).1, ∃ j, j < maxAttempts ∧
        ((fun _ => pendingResp) j).ok = true ∧ w = pollWriteVal (fun _ => pendingResp) j) ∧
      List.Chain' (fun x y => x ≤ y) (pollNanoBanana (fun _ => pendingResp)).1) := by
  have hm : ∀ b, b < maxAttempts → ∀ a, a ≤ b →
      effProgress (fun _ => pendingResp) a ≤ effProgress (fun _ => pendingResp) b := by
    intro b _ a hab
    show fallbackProgress a ≤ fallbackProgress b
    unfold fallbackProgress
    have hcast : (a : ℚ) ≤ (b : ℚ) := by exact_mod_cast hab
    norm_num [maxAttempts]
    linarith
  exact ⟨hm, C9_amended_rounded_writes_conditionally_monotone (fun _ => pendingResp) hm⟩

/-- A `filterMap` over a list with at least one element mapped to
`none` is strictly shorter than the list. -/
theorem length_filterMap_lt_of_none {α β : Type} (f : α → Option β) :
    ∀ (l : List α) (x : α), x ∈ l → f x = none → (l.filterMap f).length < l.length := by
  intro l
  induction l with
  | nil =>
      intro x hx
      simp at hx
  | cons y ys ih =>
      intro x hx hnone
      rcases List.mem_cons.mp hx with rfl | hmem
      · rw [List.filterMap_cons, hnone]
        have := List.length_filterMap_le f ys
        simpa using Nat.lt_succ_of_le this
      · cases hf : f y with
        | none =>
            rw [List.filterMap_cons, hf]
            have := ih x hmem hnone
            simpa using Nat.lt_succ_of_lt this
        | some b =>
            rw [List.filterMap_cons, hf]
            have := ih x hmem hnone
            simpa using Nat.succ_lt_succ this

/-- C10: on a rebuild for a completed batch (cache miss) in which some
completed image's sign-or-fetch fails while the archive upload and
final signing succeed, the endpoint still returns success; the upserted
bundle row records `image_count` equal to the number of completed rows
queried, the failing image contributes no archive entry, and the
stored archive holds strictly fewer files than the recorded
`image_count`. -/
theorem C10_bundle_count_exceeds_archive (existing : Option ExistingBundle) (now : Int)
    (images : List ZipImage) (env : ZipEnv) (img : ZipImage)
    (hmiss : zipCacheHit existing now = none)
    (hne : images ≠ [])
    (hup : env.zipUploadOk = true)
    (hurl : env.zipSignedUrl.isSome)
    (hmem : img ∈ images) (hfail : zipEntryOf env img = none) :
    ∃ url, zipPOST .completed existing now images env
        = .built url { image_count := (images.length : Int), signed_url := url }
            (zipEntries images env) ∧
      (zipEntries images env).length < images.length := by
  rcases Option.isSome_iff_exists.mp hurl with ⟨url, hsome⟩
  refine ⟨url, ?_, ?_⟩
  · have hneEmpty : images.isEmpty = false := by
      cases images with
      | nil => exact absurd rfl hne
      | cons a l => rfl
    simp [zipPOST, hmiss, hneEmpty, hup, hsome]
  · exact length_filterMap_lt_of_none (zipEntryOf env) images img hmem hfail

/-- Witness for C10: two completed images, the second one's signed-URL
creation fails — the bundle is built with `image_count = 2` but a
single archive entry. -/
theorem C10_bundle_count_exceeds_archive_witness :
    zipCacheHit none 0 = none ∧ c10Images ≠ [] ∧ c10Env.zipUploadOk = true ∧
    c10Env.zipSignedUrl.isSome ∧ (⟨2, "cake.jpg"⟩ : ZipImage) ∈ c10Images ∧
    zipEntryOf c10Env ⟨2, "cake.jpg"⟩ = none ∧
    (∃ url, zipPOST .completed none 0 c10Images c10Env
        = .built url { image_count := (c10Images.length : Int), signed_url := url }
            (zipEntries c10Images c10Env) ∧
      (zipEntries c10Images c10Env).length < c10Images.length) :=
  ⟨rfl, by decide, rfl, rfl, by decide, rfl,
    C10_bundle_count_exceeds_archive none 0 c10Images c10Env ⟨2, "cake.jpg"⟩
      rfl (by decide) rfl rfl (by decide) rfl⟩

end NomNom
